import Mathlib

/-!
Verification development for the A32D Blender add-on (`blender_simple.py`).

The add-on turns an animated 3D asset into a sprite sequence or a packed
spritesheet.  The definitions below are a shallow embedding of the pure
computational content of the source file: world-space bounding-box folding
(`get_static_bounds`), camera placement (`setup_camera`), the camera flip
(`setup_flip_modifier`), animated-bounds analysis (`analyze_animation_bounds`),
export-range normalization (`export_animation_frames`), and the spritesheet
operator's grid sizing, packing guard, pixel placement and temp-dir cleanup
(`ANIM_OT_export_spritesheet.execute`).  Coordinates are modelled over `ℚ`
(the Python floats only ever combine the inputs with `+ - * /`, `min`, `max`
and the literal factors 2.5, 0.7, 1.2), frame numbers over `ℤ`, and pixel
indices over `ℕ`.
-/

/-- A world-space point or offset, as produced by
`target_object.matrix_world @ mathutils.Vector(corner)`. -/
structure Vec3 where
  x : ℚ
  y : ℚ
  z : ℚ
deriving DecidableEq, Repr

/-- Python's `min` over a list of numbers (the source only applies it to the
nonempty list of the 8 bounding-box corner coordinates). -/
def pyMin : List ℚ → ℚ
  | [] => 0
  | h :: t => t.foldl min h

/-- Python's `max` over a list of numbers (nonempty in the source). -/
def pyMax : List ℚ → ℚ
  | [] => 0
  | h :: t => t.foldl max h

/-- `min_coords = [min([v[i] for v in bbox]) for i in range(3)]`. -/
def bboxMin (bbox : List Vec3) : Vec3 :=
  ⟨pyMin (bbox.map Vec3.x), pyMin (bbox.map Vec3.y), pyMin (bbox.map Vec3.z)⟩

/-- `max_coords = [max([v[i] for v in bbox]) for i in range(3)]`. -/
def bboxMax (bbox : List Vec3) : Vec3 :=
  ⟨pyMax (bbox.map Vec3.x), pyMax (bbox.map Vec3.y), pyMax (bbox.map Vec3.z)⟩

/-- `center = Vector([(min_coords[i] + max_coords[i]) / 2 for i in range(3)])`. -/
def bounds_center (bbox : List Vec3) : Vec3 :=
  ⟨((bboxMin bbox).x + (bboxMax bbox).x) / 2,
   ((bboxMin bbox).y + (bboxMax bbox).y) / 2,
   ((bboxMin bbox).z + (bboxMax bbox).z) / 2⟩

/-- `size = max(max_coords[i] - min_coords[i] for i in range(3))`. -/
def bounds_size (bbox : List Vec3) : ℚ :=
  max (max ((bboxMax bbox).x - (bboxMin bbox).x) ((bboxMax bbox).y - (bboxMin bbox).y))
    ((bboxMax bbox).z - (bboxMin bbox).z)

/-- `BlenderExporter.get_static_bounds`: world-space AABB of the object's
current pose, given the 8 world-transformed `bound_box` corners; returns
`(center, size)`. -/
def get_static_bounds (bbox : List Vec3) : Vec3 × ℚ :=
  (bounds_center bbox, bounds_size bbox)

/-- The `angle_type` strings dispatched on in `setup_camera` and
`setup_flip_modifier`. -/
inductive AngleType
  | Front
  | Isometric
  | Side
  | Custom
deriving DecidableEq, Repr

/-- The `custom_orientation` values handled by `setup_camera`'s Custom branch. -/
inductive CustomOrient
  | SIDE
  | UP
  | DOWN
deriving DecidableEq, Repr

/-- The Custom-orbit parameters read from the property group.  The host's
`math.cos`/`math.sin` of `radians(custom_camera_deg)` are supplied as the
rational values `cosA`/`sinA`. -/
structure CustomParams where
  orient : CustomOrient
  cosA : ℚ
  sinA : ℚ
deriving DecidableEq, Repr

/-- `mathutils.Matrix.Rotation(angle, 4, 'Z') @ v` on the 3D part. -/
def rotZ (c s : ℚ) (v : Vec3) : Vec3 :=
  ⟨c * v.x - s * v.y, s * v.x + c * v.y, v.z⟩

/-- `mathutils.Matrix.Rotation(angle, 4, 'X') @ v` on the 3D part. -/
def rotX (c s : ℚ) (v : Vec3) : Vec3 :=
  ⟨v.x, c * v.y - s * v.z, s * v.y + c * v.z⟩

/-- The values `BlenderExporter.setup_camera` computes and installs on the
camera object: the bound center, the (possibly padded) size, the orbit
distance, the camera location, the point the camera is oriented towards
(`direction = center - camera.location`, tracked with `-Z`/`Y`), and
`camera.data.ortho_scale`. -/
structure CameraSetup where
  center : Vec3
  size : ℚ
  distance : ℚ
  location : Vec3
  lookTarget : Vec3
  ortho_scale : ℚ
deriving DecidableEq, Repr

/-- `BlenderExporter.setup_camera`, lines 234-281 of `blender_simple.py`.
`bbox` is the world-transformed `bound_box` of the target object. -/
def setup_camera (bbox : List Vec3) (angle : AngleType) (padding_enabled : Bool)
    (padding_percent : ℚ) (custom : CustomParams) : CameraSetup :=
  let cs := get_static_bounds bbox
  let center := cs.1
  let size := if padding_enabled then cs.2 * (1 + padding_percent / 100) else cs.2
  let distance := size * (5 / 2)
  let location : Vec3 :=
    match angle with
    | .Front => ⟨center.x, center.y - distance, center.z⟩
    | .Isometric =>
        ⟨center.x + distance * (7 / 10), center.y - distance * (7 / 10),
         center.z + distance * (7 / 10)⟩
    | .Side => ⟨center.x + distance, center.y, center.z⟩
    | .Custom =>
        let base : Vec3 :=
          match custom.orient with
          | .SIDE => ⟨center.x + distance, center.y, center.z⟩
          | .UP => ⟨center.x, center.y, center.z + distance⟩
          | .DOWN => ⟨center.x, center.y, center.z - distance⟩
        let offset : Vec3 := ⟨base.x - center.x, base.y - center.y, base.z - center.z⟩
        let rotated :=
          match custom.orient with
          | .SIDE => rotZ custom.cosA custom.sinA offset
          | .UP => rotX custom.cosA custom.sinA offset
          | .DOWN => rotX custom.cosA custom.sinA offset
        ⟨center.x + rotated.x, center.y + rotated.y, center.z + rotated.z⟩
  { center := center, size := size, distance := distance, location := location,
    lookTarget := center, ortho_scale := size * (12 / 10) }

/-- `BlenderExporter.setup_flip_modifier`, lines 283-317: the new camera
location when `flip_enabled` holds (the camera is afterwards re-oriented to
look at the recomputed bound center).  The size/distance used by the
Front/Isometric/Side branches is recomputed from the raw `bound_box`,
without any padding, and the current camera location is only read in the
Custom branch. -/
def setup_flip_modifier (flip_enabled : Bool) (bbox : List Vec3) (angle : AngleType)
    (camLoc : Vec3) : Vec3 :=
  if flip_enabled then
    let center := bounds_center bbox
    match angle with
    | .Front =>
        let distance := bounds_size bbox * (5 / 2)
        ⟨center.x, center.y + distance, center.z⟩
    | .Isometric =>
        let distance := bounds_size bbox * (5 / 2)
        ⟨center.x - distance * (7 / 10), center.y + distance * (7 / 10),
         center.z + distance * (7 / 10)⟩
    | .Side =>
        let distance := bounds_size bbox * (5 / 2)
        ⟨center.x - distance, center.y, center.z⟩
    | .Custom =>
        ⟨center.x - (camLoc.x - center.x), center.y - (camLoc.y - center.y),
         center.z - (camLoc.z - center.z)⟩
  else camLoc

/-- Python's `range(start, stop, step)` over integers, for positive `step`. -/
def pyRange (start stop step : Int) : List Int :=
  (List.range ((stop - start + step - 1).toNat / step.toNat)).map
    (fun k => start + step * (k : Int))

/-- The data of a `bpy.data.actions` entry used by the exporter: its
`frame_range` endpoints, and the host collaborator giving the target
object's world-transformed `bound_box` corners at each frame (the scene is
advanced with `frame_set` before each read). -/
structure ActionData where
  frame_start : Int
  frame_end : Int
  bboxAt : Int → List Vec3

/-- `BlenderExporter.analyze_animation_bounds`, lines 385-417.  When the
named action does not exist the code returns `get_static_bounds` of the
current pose directly.  Otherwise it folds the per-frame min/max over the
sampled frames (the `float('inf')` seeds behave as fold-from-first on the
nonempty frame list) and applies the padding factor to the resulting size. -/
def analyze_animation_bounds (action : Option ActionData) (currentBBox : List Vec3)
    (padding_enabled : Bool) (padding_percent : ℚ) : Vec3 × ℚ :=
  match action with
  | none => get_static_bounds currentBBox
  | some a =>
    let step : Int := max 1 (Int.fdiv (a.frame_end - a.frame_start) 20)
    let frames := pyRange a.frame_start (a.frame_end + 1) step
    let frameMins := frames.map (fun f => bboxMin (a.bboxAt f))
    let frameMaxs := frames.map (fun f => bboxMax (a.bboxAt f))
    let allMin : Vec3 :=
      ⟨pyMin (frameMins.map Vec3.x), pyMin (frameMins.map Vec3.y),
       pyMin (frameMins.map Vec3.z)⟩
    let allMax : Vec3 :=
      ⟨pyMax (frameMaxs.map Vec3.x), pyMax (frameMaxs.map Vec3.y),
       pyMax (frameMaxs.map Vec3.z)⟩
    let center : Vec3 :=
      ⟨(allMin.x + allMax.x) / 2, (allMin.y + allMax.y) / 2,
       (allMin.z + allMax.z) / 2⟩
    let size0 := max (max (allMax.x - allMin.x) (allMax.y - allMin.y)) (allMax.z - allMin.z)
    let size := if padding_enabled then size0 * (1 + padding_percent / 100) else size0
    (center, size)

/-- The range normalization of `BlenderExporter.export_animation_frames`,
lines 350-359: default the missing endpoints to the action's own range,
clamp each endpoint independently (`start = max(action_start, start)`,
`end = min(action_end, end)`), then swap if the pair ended up inverted. -/
def normalize_export_range (action_start action_end : Int)
    (start_frame end_frame : Option Int) : Int × Int :=
  let s0 := start_frame.getD action_start
  let e0 := end_frame.getD action_end
  let s1 := max action_start s0
  let e1 := min action_end e0
  if s1 > e1 then (e1, s1) else (s1, e1)

/-- `frames_to_export = list(range(start_frame, end_frame + 1))`, line 360. -/
def frames_to_export (action_start action_end : Int)
    (start_frame end_frame : Option Int) : List Int :=
  let r := normalize_export_range action_start action_end start_frame end_frame
  pyRange r.1 (r.2 + 1) 1

/-- `int(math.ceil(math.sqrt(n)))`, line 658. -/
def ceil_sqrt (n : Nat) : Nat :=
  if Nat.sqrt n * Nat.sqrt n = n then Nat.sqrt n else Nat.sqrt n + 1

/-- `int(math.ceil(n / c))` for positive `c`, line 659. -/
def ceil_div (n c : Nat) : Nat := (n + c - 1) / c

/-- The desired frame count derived in `ANIM_OT_export_spritesheet.execute`,
lines 651-657: clamp the requested range to the action's range, swap if
inverted, and count the closed range. -/
def sheet_desired_frames (action_start action_end props_start props_end : Int) : Nat :=
  let s := max action_start props_start
  let e := min action_end props_end
  let p := if s > e then (e, s) else (s, e)
  (p.2 - p.1 + 1).toNat

/-- The grid quantities computed by `ANIM_OT_export_spritesheet.execute`,
lines 648-663. -/
structure SheetGridPlan where
  cols : Nat
  rows : Nat
  max_frames : Nat
  desired_frames : Nat
  export_count : Nat
deriving DecidableEq, Repr

/-- Grid sizing in `ANIM_OT_export_spritesheet.execute`, lines 648-663.  The
property group's `auto_grid`, `sprite_columns` and `sprite_rows` are in
scope through `props` but are never read by this operator; the square-ish
auto grid is computed unconditionally from the frame range. -/
def sheet_grid_plan (action_start action_end props_start props_end : Int)
    (auto_grid : Bool) (sprite_columns sprite_rows : Nat) : SheetGridPlan :=
  let desired := sheet_desired_frames action_start action_end props_start props_end
  let cols := ceil_sqrt desired
  let rows := ceil_div desired cols
  { cols := cols, rows := rows, max_frames := cols * rows,
    desired_frames := desired, export_count := min desired (cols * rows) }

/-- The return statuses of a Blender operator's `execute`. -/
inductive OpStatus
  | FINISHED
  | CANCELLED
deriving DecidableEq, Repr

/-- What the tail of `ANIM_OT_export_spritesheet.execute` (lines 683-749)
does once the frames are rendered, assuming no exception: whether the
packing branch ran, whether a sheet file was written, the operator status,
and whether an error was reported. -/
structure PackOutcome where
  packed : Bool
  sheet_written : Bool
  status : OpStatus
  error_reported : Bool
deriving DecidableEq, Repr

/-- The packing guard `if frame_files and len(frame_files) >= frame_count:`
(line 683) and the code that follows it: when the guard fails the packing
block is skipped, and either way control falls through to the cleanup and
to `self.report({'INFO'}, ...)` / `return {'FINISHED'}` (lines 743-749). -/
def spritesheet_pack_outcome (num_frame_files frame_count : Nat) : PackOutcome :=
  if num_frame_files ≠ 0 ∧ frame_count ≤ num_frame_files then
    { packed := true, sheet_written := true, status := .FINISHED, error_reported := false }
  else
    { packed := false, sheet_written := false, status := .FINISHED, error_reported := false }

/-- The steps inside the `try` block of `ANIM_OT_export_spritesheet.execute`
that can raise after the temporary frame directory has been created. -/
inductive SheetStep
  | render_frames
  | load_frame
  | composite_sheet
  | save_sheet
deriving DecidableEq, Repr

/-- One step of the `try` body: raises exactly when the failure scenario
`failAt` names it. -/
def sheet_phase (failAt : Option SheetStep) (s : SheetStep) : Except String Unit :=
  if failAt = some s then Except.error "step raised" else Except.ok ()

/-- The `try` body of `ANIM_OT_export_spritesheet.execute` after the temp
directory is created (lines 664-741), as the sequence of raising steps. -/
def sheet_try_body (failAt : Option SheetStep) : Except String Unit := do
  sheet_phase failAt .render_frames
  sheet_phase failAt .load_frame
  sheet_phase failAt .composite_sheet
  sheet_phase failAt .save_sheet

/-- Observable outcome of the whole spritesheet operator for the cleanup
contract. -/
structure SheetRun where
  temp_dir_removed : Bool
  status : OpStatus
deriving DecidableEq, Repr

/-- Control flow of `ANIM_OT_export_spritesheet.execute` around the temp
directory: `shutil.rmtree(temp_dir)` (lines 744-746) is the last statement
of the `try` block, so it runs only when no step raised; the `except`
handler (lines 751-753) reports the error and returns `CANCELLED` without
removing the directory. -/
def export_spritesheet_run (failAt : Option SheetStep) : SheetRun :=
  match sheet_try_body failAt with
  | .ok _ => { temp_dir_removed := true, status := .FINISHED }
  | .error _ => { temp_dir_removed := false, status := .CANCELLED }

/-- `col = i % cols; row = i // cols`, computed identically at lines 696-697
(PIL path) and 718-719 (pixel-buffer fallback path). -/
def grid_cell (i cols : Nat) : Nat × Nat := (i % cols, i / cols)

/-- The PIL path's paste origin for frame `i`:
`x_offset = col * size; y_offset = row * size; sheet.paste(img, (x_offset, y_offset))`,
lines 698-700. -/
def pil_paste_offset (i cols size : Nat) : Nat × Nat :=
  ((i % cols) * size, (i / cols) * size)

/-- Index of the first channel of pixel `(px, py)` in a row-major RGBA
float buffer of row length `w`. -/
def rgba_index (w px py : Nat) : Nat := (py * w + px) * 4

/-- The fallback path's destination index for source pixel `(x, y)` of frame
`i`: `dst_x = col * size + x; dst_y = (rows - 1 - row) * size + y;
dst_idx = (dst_y * spritesheet_width + dst_x) * 4`, lines 725-728. -/
def fallback_dst_index (i cols rows size sheetW x y : Nat) : Nat :=
  let col := i % cols
  let row := i / cols
  let dst_x := col * size + x
  let dst_y := (rows - 1 - row) * size + y
  (dst_y * sheetW + dst_x) * 4

/-- The 8 world-space AABB corners of the end-to-end scenario of the spec:
a box spanning `(-1,-1,0)` to `(1,1,2)`. -/
def c1_bbox : List Vec3 :=
  [⟨-1, -1, 0⟩, ⟨-1, -1, 2⟩, ⟨-1, 1, 0⟩, ⟨-1, 1, 2⟩,
   ⟨1, -1, 0⟩, ⟨1, -1, 2⟩, ⟨1, 1, 0⟩, ⟨1, 1, 2⟩]

/-- The 8 world-space AABB corners of a unit cube at the origin. -/
def cube_bbox : List Vec3 :=
  [⟨0, 0, 0⟩, ⟨0, 0, 1⟩, ⟨0, 1, 0⟩, ⟨0, 1, 1⟩,
   ⟨1, 0, 0⟩, ⟨1, 0, 1⟩, ⟨1, 1, 0⟩, ⟨1, 1, 1⟩]

/-- Concrete Custom-orbit parameters (angle 0). -/
def cust0 : CustomParams := ⟨CustomOrient.SIDE, 1, 0⟩

/-- The end-to-end scenario's static bounds: center `(0,0,1)`, size `2`. -/
theorem c1_bbox_static_bounds : get_static_bounds c1_bbox = (⟨0, 0, 1⟩, 2) := by
  simp only [get_static_bounds, bounds_center, bounds_size, bboxMin, bboxMax, pyMin, pyMax,
    c1_bbox, List.map, List.foldl, min_def, max_def]
  norm_num

/-- The unit cube's static bounds: center `(1/2,1/2,1/2)`, size `1`. -/
theorem cube_bbox_static_bounds : get_static_bounds cube_bbox = (⟨1/2, 1/2, 1/2⟩, 1) := by
  simp only [get_static_bounds, bounds_center, bounds_size, bboxMin, bboxMax, pyMin, pyMax,
    cube_bbox, List.map, List.foldl, min_def, max_def]
  norm_num

/-- `ceil_div n c` is the ceiling of `n / c`: `c * ceil_div n c` covers `n`
and overshoots by less than `c`. -/
theorem ceil_div_bounds (n c : Nat) (hc : 0 < c) :
    n ≤ c * ceil_div n c ∧ c * ceil_div n c < n + c := by
  unfold ceil_div
  have h1 := Nat.div_add_mod (n + c - 1) c
  have h2 : (n + c - 1) % c < c := Nat.mod_lt _ hc
  omega

/-- `ceil_sqrt` of a positive number is positive. -/
theorem one_le_ceil_sqrt (n : Nat) (h : 1 ≤ n) : 1 ≤ ceil_sqrt n := by
  unfold ceil_sqrt
  rcases Nat.eq_zero_or_pos (Nat.sqrt n) with h0 | h0
  · have : ¬ Nat.sqrt n * Nat.sqrt n = n := by
      rw [h0]
      omega
    rw [if_neg this]
    omega
  · split <;> omega

/-- `ceil_sqrt n` is the ceiling of the square root of `n`: its square covers
`n`, and the square of its predecessor does not. -/
theorem ceil_sqrt_spec (n : Nat) (h : 1 ≤ n) :
    (ceil_sqrt n - 1) * (ceil_sqrt n - 1) < n ∧ n ≤ ceil_sqrt n * ceil_sqrt n := by
  have hle : Nat.sqrt n * Nat.sqrt n ≤ n := Nat.sqrt_le n
  have hlt : n < (Nat.sqrt n + 1) * (Nat.sqrt n + 1) := Nat.lt_succ_sqrt n
  have hpos : 0 < Nat.sqrt n := Nat.sqrt_pos.mpr h
  unfold ceil_sqrt
  by_cases hsq : Nat.sqrt n * Nat.sqrt n = n
  · rw [if_pos hsq]
    refine ⟨?_, by omega⟩
    calc (Nat.sqrt n - 1) * (Nat.sqrt n - 1) < Nat.sqrt n * Nat.sqrt n :=
          Nat.mul_self_lt_mul_self (by omega)
      _ = n := hsq
  · rw [if_neg hsq]
    have : Nat.sqrt n * Nat.sqrt n < n := lt_of_le_of_ne hle hsq
    constructor
    · simpa using this
    · omega

/-- The auto grid covers the frame count: `n ≤ cols * rows`. -/
theorem auto_grid_covers (n : Nat) (h : 1 ≤ n) :
    n ≤ ceil_sqrt n * ceil_div n (ceil_sqrt n) :=
  (ceil_div_bounds n (ceil_sqrt n) (one_le_ceil_sqrt n h)).1

/-- The clamped-and-swapped spritesheet range always yields at least one
desired frame. -/
theorem one_le_sheet_desired (action_start action_end props_start props_end : Int) :
    1 ≤ sheet_desired_frames action_start action_end props_start props_end := by
  unfold sheet_desired_frames
  dsimp only
  split <;> dsimp only <;> omega

/-- Evaluation rule for `Nat.sqrt` from its two-sided characterization
(`Nat.sqrt` itself is not kernel-reducible). -/
theorem nat_sqrt_eq_of_bounds (n r : Nat) (h1 : r * r ≤ n) (h2 : n < (r + 1) * (r + 1)) :
    Nat.sqrt n = r := by
  have ha : r ≤ Nat.sqrt n := Nat.le_sqrt.mpr h1
  have hb : Nat.sqrt n < r + 1 := Nat.sqrt_lt.mpr h2
  omega

/-- `ceil(sqrt(16)) = 4`. -/
theorem ceil_sqrt_16 : ceil_sqrt 16 = 4 := by
  rw [ceil_sqrt, nat_sqrt_eq_of_bounds 16 4 (by norm_num) (by norm_num)]
  norm_num

/-- `ceil(sqrt(10)) = 4`. -/
theorem ceil_sqrt_10 : ceil_sqrt 10 = 4 := by
  rw [ceil_sqrt, nat_sqrt_eq_of_bounds 10 3 (by norm_num) (by norm_num)]
  norm_num

/-- `ceil(sqrt(1)) = 1`. -/
theorem ceil_sqrt_1 : ceil_sqrt 1 = 1 := by
  rw [ceil_sqrt, nat_sqrt_eq_of_bounds 1 1 (by norm_num) (by norm_num)]
  norm_num

/-- Membership in a unit-step Python range. -/
theorem mem_pyRange_one (lo hi k : Int) : k ∈ pyRange lo hi 1 ↔ lo ≤ k ∧ k < hi := by
  unfold pyRange
  have h0 : hi - lo + 1 - 1 = hi - lo := by ring
  simp [h0]
  constructor
  · rintro ⟨a, ⟨m, hm, rfl⟩, rfl⟩
    omega
  · rintro ⟨h1, h2⟩
    exact ⟨k - lo, ⟨(k - lo).toNat, by omega, by omega⟩, by omega⟩

/-- C1 counterexample: with the Side preset and padding disabled, the camera
for the box spanning `(-1,-1,0)` to `(1,1,2)` is placed at `(5,0,1)` —
`center + (distance, 0, 0)` with `distance = 5` — not at the claimed
`(6,0,1)`. -/
theorem c1_side_position_counterexample :
    (setup_camera c1_bbox AngleType.Side false 20 cust0).location = ⟨5, 0, 1⟩ ∧
      (⟨5, 0, 1⟩ : Vec3) ≠ (⟨6, 0, 1⟩ : Vec3) := by
  constructor
  · simp only [setup_camera, c1_bbox_static_bounds]
    norm_num
  · simp [Vec3.mk.injEq]

/-- C1 (amended): for the Side preset with padding disabled, the box spanning
`(-1,-1,0)` to `(1,1,2)` yields `size = 2`, `distance = 5`, a camera at
`(5,0,1)`, and a look-at target of `(0,0,1)` (the bound center), for every
`padding_percent` and custom-orbit setting. -/
theorem c1_side_scenario (pp : ℚ) (cust : CustomParams) :
    (setup_camera c1_bbox AngleType.Side false pp cust).size = 2 ∧
    (setup_camera c1_bbox AngleType.Side false pp cust).distance = 5 ∧
    (setup_camera c1_bbox AngleType.Side false pp cust).location = ⟨5, 0, 1⟩ ∧
    (setup_camera c1_bbox AngleType.Side false pp cust).lookTarget = ⟨0, 0, 1⟩ ∧
    (setup_camera c1_bbox AngleType.Side false pp cust).center = ⟨0, 0, 1⟩ := by
  simp only [setup_camera, c1_bbox_static_bounds]
  norm_num

/-- C2 counterexample: for the Front preset on a unit cube, flipping twice
does not return the camera to its original position: the camera starts at
the Front position `(1/2, -2, 1/2)`, and after two flips it sits at
`(1/2, 3, 1/2)`. -/
theorem flip_twice_front_counterexample :
    setup_flip_modifier true cube_bbox AngleType.Front
        (setup_flip_modifier true cube_bbox AngleType.Front
          (setup_camera cube_bbox AngleType.Front false 0 cust0).location) ≠
      (setup_camera cube_bbox AngleType.Front false 0 cust0).location := by
  have hc : bounds_center cube_bbox = ⟨1/2, 1/2, 1/2⟩ :=
    congrArg Prod.fst cube_bbox_static_bounds
  have hs : bounds_size cube_bbox = 1 := congrArg Prod.snd cube_bbox_static_bounds
  have h1 : (setup_camera cube_bbox AngleType.Front false 0 cust0).location =
      ⟨1/2, -2, 1/2⟩ := by
    simp only [setup_camera, cube_bbox_static_bounds]
    norm_num
  rw [h1]
  simp only [setup_flip_modifier, hc, hs, if_true]
  norm_num [Vec3.mk.injEq]

/-- C2 (amended): only the Custom flip is an involution — it reflects the
current camera position through the bound center
(`new_position = 2*center - position`).  For the Front, Side and Isometric
presets the flip ignores the current camera position and moves the camera to
a fixed mirrored preset position recomputed from the unpadded static bounds,
so a second application leaves the camera at that same flipped position
(idempotence), not at the original one. -/
theorem flip_twice_characterization (bbox : List Vec3) (angle : AngleType) (loc : Vec3) :
    setup_flip_modifier true bbox angle (setup_flip_modifier true bbox angle loc) =
      (if angle = AngleType.Custom then loc
        else setup_flip_modifier true bbox angle loc) ∧
    setup_flip_modifier true bbox AngleType.Custom loc =
      ⟨2 * (bounds_center bbox).x - loc.x, 2 * (bounds_center bbox).y - loc.y,
        2 * (bounds_center bbox).z - loc.z⟩ := by
  constructor
  · cases angle with
    | Front => rfl
    | Isometric => rfl
    | Side => rfl
    | Custom =>
        rw [if_pos rfl]
        obtain ⟨x, y, z⟩ := loc
        simp only [setup_flip_modifier, if_true, Vec3.mk.injEq]
        refine ⟨by ring, by ring, by ring⟩
  · obtain ⟨x, y, z⟩ := loc
    simp only [setup_flip_modifier, if_true, Vec3.mk.injEq]
    refine ⟨by ring, by ring, by ring⟩

/-- C5 counterexample: for the box of size 2, enabling padding at 20% gives
`ortho_scale = 2.88 = (2 * 1.2) * 1.2`, not the bound's largest dimension
times 1.2 (`2.4`): `ortho_scale` does depend on the padding setting. -/
theorem ortho_scale_padding_counterexample :
    (get_static_bounds c1_bbox).2 = 2 ∧
      (setup_camera c1_bbox AngleType.Side true 20 cust0).ortho_scale ≠ 2 * (12 / 10) := by
  constructor
  · rw [c1_bbox_static_bounds]
  · simp only [setup_camera, c1_bbox_static_bounds]
    norm_num

/-- C5 (amended): `ortho_scale` is the *padded* size times 1.2: with padding
enabled it equals `static_size * (1 + padding_percent/100) * 1.2` (and so
varies with `padding_percent`); only with padding disabled does it equal the
bound's largest dimension times 1.2. -/
theorem ortho_scale_tracks_padded_size (bbox : List Vec3) (angle : AngleType) (pp : ℚ)
    (cust : CustomParams) :
    (setup_camera bbox angle true pp cust).ortho_scale =
      (get_static_bounds bbox).2 * (1 + pp / 100) * (12 / 10) ∧
    (setup_camera bbox angle false pp cust).ortho_scale =
      (get_static_bounds bbox).2 * (12 / 10) :=
  ⟨rfl, rfl⟩

/-- C6 counterexample: with padding enabled at 20%, the fallback path (no
action found) returns the static size `2` unchanged, not the padded
`2 * (1 + 20/100) = 2.4`. -/
theorem fallback_padding_counterexample :
    (analyze_animation_bounds none c1_bbox true 20).2 ≠
      (get_static_bounds c1_bbox).2 * (1 + 20 / 100) := by
  have h : analyze_animation_bounds none c1_bbox true 20 = get_static_bounds c1_bbox := rfl
  rw [h, c1_bbox_static_bounds]
  norm_num

/-- C6 (amended): on the sampled-animation path the returned size is the
unpadded folded size times `1 + padding_percent/100`, but when the named
action does not exist the code returns `get_static_bounds` of the current
pose directly, with no padding applied. -/
theorem animation_bounds_padding_paths (a : ActionData) (bbox : List Vec3) (pe : Bool)
    (pp : ℚ) :
    (analyze_animation_bounds (some a) bbox true pp).2 =
      (analyze_animation_bounds (some a) bbox false pp).2 * (1 + pp / 100) ∧
    analyze_animation_bounds none bbox pe pp = get_static_bounds bbox :=
  ⟨rfl, rfl⟩

/-- C3 counterexample: with 0 frame files on disk and `frame_count = 1`, the
operator skips packing but still returns `FINISHED` with no error reported —
it reports success, not failure. -/
theorem missing_frames_success_counterexample :
    (spritesheet_pack_outcome 0 1).status = OpStatus.FINISHED ∧
    (spritesheet_pack_outcome 0 1).error_reported = false ∧
    (spritesheet_pack_outcome 0 1).packed = false := by
  decide

/-- C3 (amended): whenever fewer frame files exist than `frame_count`
requires, packing is skipped and no (partial) sheet is written — but the
operator still reports success (`FINISHED`, an INFO message naming a file
that was never created) instead of surfacing an error. -/
theorem missing_frames_skip_and_success (num_frame_files frame_count : Nat)
    (h : num_frame_files < frame_count) :
    spritesheet_pack_outcome num_frame_files frame_count =
      { packed := false, sheet_written := false, status := OpStatus.FINISHED,
        error_reported := false } := by
  unfold spritesheet_pack_outcome
  rw [if_neg (by omega : ¬(num_frame_files ≠ 0 ∧ frame_count ≤ num_frame_files))]

theorem missing_frames_skip_and_success_witness :
    0 < 1 ∧ spritesheet_pack_outcome 0 1 =
      { packed := false, sheet_written := false, status := OpStatus.FINISHED,
        error_reported := false } :=
  ⟨by decide, missing_frames_skip_and_success 0 1 (by decide)⟩

/-- C4 counterexample: when rendering raises, the operator reports the error
and returns `CANCELLED` without removing the temporary frame directory. -/
theorem temp_dir_leak_counterexample :
    (export_spritesheet_run (some SheetStep.render_frames)).temp_dir_removed = false ∧
    (export_spritesheet_run (some SheetStep.render_frames)).status = OpStatus.CANCELLED := by
  decide

/-- C4 (amended): the temporary frame directory is removed exactly on the
non-raising executions (including the skipped-packing one): `shutil.rmtree`
is the last statement of the `try` block, and the `except` handler returns
`CANCELLED` without any cleanup, so any step that raises leaks the temp
directory and its frame files. -/
theorem temp_dir_removed_iff_no_raise (failAt : Option SheetStep) :
    (export_spritesheet_run failAt).temp_dir_removed = true ↔ failAt = none := by
  cases failAt with
  | none => decide
  | some s => cases s <;> decide

/-- C7 counterexample: with auto-grid disabled and explicit 2×2 configured,
an 11-frame range (native `[1,10]`, requested `[1,10]` — 10 desired frames)
still gets the auto grid 4×3 with `max_frames = 12` and exports all 10
frames: the configured `columns × rows = 4` is ignored and nothing is
truncated to it. -/
theorem manual_grid_ignored_counterexample :
    (sheet_grid_plan 1 10 1 10 false 2 2).cols = 4 ∧
    (sheet_grid_plan 1 10 1 10 false 2 2).rows = 3 ∧
    (sheet_grid_plan 1 10 1 10 false 2 2).max_frames ≠ 2 * 2 ∧
    (sheet_grid_plan 1 10 1 10 false 2 2).export_count = 10 := by
  have hd : sheet_desired_frames 1 10 1 10 = 10 := by decide
  refine ⟨?_, ?_, ?_, ?_⟩ <;> simp only [sheet_grid_plan, hd, ceil_sqrt_10] <;> decide

/-- C7 (amended): the spritesheet export always uses the automatic
square-ish grid — the `auto_grid`, `sprite_columns` and `sprite_rows`
settings are never read by the operator — and since the auto grid covers
the desired frame count, `export_count = desired_frames`: no frame is ever
truncated. -/
theorem sheet_grid_ignores_manual_settings (action_start action_end props_start
    props_end : Int) (auto_grid : Bool) (sprite_columns sprite_rows : Nat) :
    sheet_grid_plan action_start action_end props_start props_end auto_grid
        sprite_columns sprite_rows =
      sheet_grid_plan action_start action_end props_start props_end true 4 4 ∧
    (sheet_grid_plan action_start action_end props_start props_end auto_grid
          sprite_columns sprite_rows).export_count =
      (sheet_grid_plan action_start action_end props_start props_end auto_grid
          sprite_columns sprite_rows).desired_frames := by
  refine ⟨rfl, ?_⟩
  have hd := one_le_sheet_desired action_start action_end props_start props_end
  have hcov := auto_grid_covers _ hd
  simp only [sheet_grid_plan]
  exact min_eq_left hcov

/-- C8: both packing paths place frame `i` in grid cell
`(i % cols, i / cols)`; the PIL path pastes at pixel offset
`(col*size, row*size)` (row 0 at the top of the image), while the
pixel-buffer fallback writes the frame's pixel `(x,y)` at buffer index
`((rows-1-row)*size + y) * width + (col*size + x)` channels — cell origin
`(col*size, (rows-1-row)*size)` — and the two conventions disagree at a
concrete input (frame 0 of a 2×2 grid of 8-pixel cells). -/
theorem packing_offset_conventions (i cols rows size w x y : Nat) :
    pil_paste_offset i cols size =
      ((grid_cell i cols).1 * size, (grid_cell i cols).2 * size) ∧
    fallback_dst_index i cols rows size w x y =
      rgba_index w ((grid_cell i cols).1 * size + x)
        ((rows - 1 - (grid_cell i cols).2) * size + y) ∧
    pil_paste_offset 0 2 8 ≠
      ((grid_cell 0 2).1 * 8, (2 - 1 - (grid_cell 0 2).2) * 8) := by
  refine ⟨rfl, rfl, by decide⟩

/-- C9: the auto grid uses `columns = ceil(sqrt(n))` (the least `c` with
`n ≤ c*c`) and `rows = ceil(n / columns)`, so `columns * rows ≥ n` (with an
overshoot below one extra row); and `n = 16 → 4×4`, `n = 10 → 4×3`,
`n = 1 → 1×1`. -/
theorem auto_grid_sizing_spec (n : Nat) (h : 1 ≤ n) :
    n ≤ ceil_sqrt n * ceil_div n (ceil_sqrt n) ∧
    n ≤ ceil_sqrt n * ceil_sqrt n ∧
    (ceil_sqrt n - 1) * (ceil_sqrt n - 1) < n ∧
    ceil_sqrt n * ceil_div n (ceil_sqrt n) < n + ceil_sqrt n ∧
    ceil_sqrt 16 = 4 ∧ ceil_div 16 (ceil_sqrt 16) = 4 ∧
    ceil_sqrt 10 = 4 ∧ ceil_div 10 (ceil_sqrt 10) = 3 ∧
    ceil_sqrt 1 = 1 ∧ ceil_div 1 (ceil_sqrt 1) = 1 := by
  have hc := one_le_ceil_sqrt n h
  have hb := ceil_div_bounds n (ceil_sqrt n) hc
  have hs := ceil_sqrt_spec n h
  refine ⟨hb.1, hs.2, hs.1, hb.2, ceil_sqrt_16, ?_, ceil_sqrt_10, ?_, ceil_sqrt_1, ?_⟩
  · rw [ceil_sqrt_16]
    decide
  · rw [ceil_sqrt_10]
    decide
  · rw [ceil_sqrt_1]
    decide

theorem auto_grid_sizing_spec_witness :
    1 ≤ 10 ∧ 10 ≤ ceil_sqrt 10 * ceil_div 10 (ceil_sqrt 10) :=
  ⟨by decide, (auto_grid_sizing_spec 10 (by decide)).1⟩

/-- C10: for a native range `[a,b]` and a requested range `[s,e]` entirely
below it (`s ≤ e < a`), the endpoints are clamped independently to `(a, e)`,
the inverted pair is swapped to `(e, a)`, and the exported frames are exactly
the integers from `e` through `a` — including frames strictly below the
native start `a`. -/
theorem export_range_escapes_native (a b s e : Int) (hab : a ≤ b) (hse : s ≤ e)
    (hea : e < a) :
    normalize_export_range a b (some s) (some e) = (e, a) ∧
    (∀ k : Int, k ∈ frames_to_export a b (some s) (some e) ↔ e ≤ k ∧ k ≤ a) ∧
    e ∈ frames_to_export a b (some s) (some e) := by
  have hn : normalize_export_range a b (some s) (some e) = (e, a) := by
    unfold normalize_export_range
    simp only [Option.getD_some]
    have h1 : max a s = a := by omega
    have h2 : min b e = e := by omega
    rw [h1, h2, if_pos (by omega)]
  have hm : ∀ k : Int, k ∈ frames_to_export a b (some s) (some e) ↔ e ≤ k ∧ k ≤ a := by
    intro k
    unfold frames_to_export
    rw [hn]
    dsimp only
    rw [mem_pyRange_one]
    omega
  exact ⟨hn, hm, (hm e).mpr ⟨le_refl e, by omega⟩⟩

theorem export_range_escapes_native_witness :
    (10 : Int) ≤ 20 ∧ (3 : Int) ≤ 5 ∧ (5 : Int) < 10 ∧
      normalize_export_range 10 20 (some 3) (some 5) = (5, 10) :=
  ⟨by decide, by decide, by decide,
    (export_range_escapes_native 10 20 3 5 (by decide) (by decide) (by decide)).1⟩
